import Mathlib

/-!
Shallow embedding of src/packages/agent_ffi/src/lib.rs (playit-ios FFI bridge).

Strings are modelled by Lean String; a CString is modelled as a String that
contains no null character.  Presence of channel handles (watch::Sender,
mpsc::Receiver, Arc of AtomicBool) is modelled by Bool fields, since only
presence or absence of these handles is observable in the control record.
-/

namespace PlayitFfi

/-- The null character, used by the sanitization in lib.rs. -/
def nulChar : Char := Char.ofNat 0

/-- Model of value.replace of the null character by the empty string
(line 111 of lib.rs): every null character is removed. -/
def removeNul (s : String) : String := ⟨s.data.filter (fun c => c != nulChar)⟩

/-- Model of CString construction: fails exactly when the string still
contains an embedded null byte, otherwise returns the string itself
(the terminating null byte is implicit). -/
def cstringNew (s : String) : Option String :=
  if nulChar ∈ s.data then none else some s

/-- Transcription of cstring_sanitize (lib.rs lines 110-113): remove the
embedded null bytes, then build the CString.  The Result is modelled as
Option, matching the .ok() conversions at every call site. -/
def cstring_sanitize (v : String) : Option String :=
  cstringNew (removeNul v)

/-- Transcription of PlayitStatusCode (lib.rs lines 36-44). -/
inductive PlayitStatusCode
  | Stopped
  | Connecting
  | Connected
  | Disconnected
  | Error
deriving DecidableEq, Repr

/-- The numeric value of each status code, as declared by the repr C enum
(Stopped = 0 through Error = 4) and returned by playit_get_status. -/
def PlayitStatusCode.toInt : PlayitStatusCode → Int
  | .Stopped => 0
  | .Connecting => 1
  | .Connected => 2
  | .Disconnected => 3
  | .Error => 4

/-- Transcription of StatusSnapshot (lib.rs lines 53-57); the CString
fields are modelled as null-free Strings. -/
structure StatusSnapshot where
  code : PlayitStatusCode
  last_address : Option String
  last_error : Option String
deriving DecidableEq, Repr

/-- Transcription of FfiConfig (lib.rs lines 20-27). -/
structure FfiConfig where
  secret_key : String
  api_url : Option String
  poll_interval_ms : Option Nat
deriving DecidableEq, Repr

/-- Transcription of GlobalState (lib.rs lines 59-66).  The status Arc is
inlined as a snapshot field; stop_tx, stopped_rx and keep_running model
the presence of the Option handles by a Bool. -/
structure GlobalState where
  config : Option FfiConfig
  status : StatusSnapshot
  running : Bool
  stop_tx : Bool
  stopped_rx : Bool
  keep_running : Bool
deriving DecidableEq, Repr

/-- The state installed by the lazy initializer of STATE
(lib.rs lines 72-87). -/
def initialGlobalState : GlobalState :=
  { config := none
    status := { code := .Stopped, last_address := none, last_error := none }
    running := false
    stop_tx := false
    stopped_rx := false
    keep_running := false }

/-- Transcription of set_status (lib.rs lines 98-108): overwrite the whole
snapshot, sanitizing both optional strings with cstring_sanitize and
dropping them on failure, exactly as the and_then of ok does. -/
def set_status (g : GlobalState) (code : PlayitStatusCode)
    (address : Option String) (error : Option String) : GlobalState :=
  { g with status :=
      { code := code
        last_address := address.bind cstring_sanitize
        last_error := error.bind cstring_sanitize } }

/-- Transcription of playit_get_status (lib.rs lines 341-362): returns the
numeric code and the two optional strings (null pointer modelled as none). -/
def playit_get_status (g : GlobalState) : Int × Option String × Option String :=
  (g.status.code.toInt, g.status.last_address, g.status.last_error)

/-- The control-state invariant claimed by the spec: the running flag is
set exactly when both the shutdown sender and the shutdown-complete
receiver are present. -/
def ctrlInv (g : GlobalState) : Prop :=
  g.running = true ↔ (g.stop_tx = true ∧ g.stopped_rx = true)

instance (g : GlobalState) : Decidable (ctrlInv g) := by
  unfold ctrlInv; infer_instance

/-- A JSON value, the shape of the configuration payload.  Parsing of the
payload text into this shape is done by the external serde_json crate and
is abstracted: playit_init receives the parse outcome. -/
inductive Json
  | nul
  | num (n : Nat)
  | str (s : String)
  | arr (xs : List Json)
  | obj (fields : List (String × Json))

/-- Look a key up in a JSON object field list (first binding wins). -/
def jsonField (fields : List (String × Json)) (k : String) : Option Json :=
  (fields.find? (fun kv => kv.1 == k)).map (·.2)

/-- Decoding of an optional string field: absent or null yields none, a
string yields some, any other shape is a decode error. -/
def decodeOptString : Option Json → Option (Option String)
  | none => some none
  | some .nul => some none
  | some (.str s) => some (some s)
  | some _ => none

/-- Decoding of an optional number field: absent or null yields none, a
number yields some, any other shape is a decode error. -/
def decodeOptNat : Option Json → Option (Option Nat)
  | none => some none
  | some .nul => some none
  | some (.num n) => some (some n)
  | some _ => none

/-- Model of the derived deserializer for FfiConfig (lib.rs lines 20-27):
the secret_key string is required, api_url and poll_interval_ms carry a
serde default and are optional; a non-object payload or a missing or
non-string secret_key is a decode error. -/
def decodeFfiConfig : Json → Option FfiConfig
  | .obj fields =>
    match jsonField fields "secret_key" with
    | some (.str sk) =>
      match decodeOptString (jsonField fields "api_url"),
            decodeOptNat (jsonField fields "poll_interval_ms") with
      | some au, some pim => some { secret_key := sk, api_url := au, poll_interval_ms := pim }
      | _, _ => none
    | _ => none
  | _ => none

/-- The input of playit_init as seen after the external decoding stages:
a null pointer, a non-UTF-8 byte string (CStr to_str fails), or a UTF-8
string that either fails to parse as JSON (none) or parses to a value. -/
inductive InitInput
  | nullPtr
  | invalidUtf8
  | utf8 (j : Option Json)

/-- Transcription of playit_init (lib.rs lines 211-238): null pointer
returns -1, invalid UTF-8 returns -2, a serde_json failure (unparsable
text or a payload that does not decode to FfiConfig) returns -3; on
success the configuration is stored, running and all handles are cleared
in one critical section, and the snapshot is reset to Stopped. -/
def playit_init (input : InitInput) (g : GlobalState) : Int × GlobalState :=
  match input with
  | .nullPtr => (-1, g)
  | .invalidUtf8 => (-2, g)
  | .utf8 none => (-3, g)
  | .utf8 (some j) =>
    match decodeFfiConfig j with
    | none => (-3, g)
    | some config =>
      let g1 := { g with config := some config, keep_running := false,
                         running := false, stop_tx := false, stopped_rx := false }
      (0, set_status g1 .Stopped none none)

/-- Transcription of the first critical section of playit_start
(lib.rs lines 243-258): under the control lock, an already-running state
returns -2, a missing configuration returns -1; otherwise running is set,
keep_running is cleared, and the lock is released. -/
def playit_start_lock1 (g : GlobalState) : Except Int (FfiConfig × GlobalState) :=
  if g.running then .error (-2)
  else
    match g.config with
    | none => .error (-1)
    | some c => .ok (c, { g with running := true, keep_running := false })

/-- Transcription of the second critical section of playit_start
(lib.rs lines 264-268): the freshly created stop sender and stopped
receiver are installed under the control lock. -/
def playit_start_lock2 (g : GlobalState) : GlobalState :=
  { g with stop_tx := true, stopped_rx := true }

/-- Transcription of playit_start (lib.rs lines 241-307) up to the spawn
of the worker: the first critical section, then set_status Connecting
outside the lock, then the second critical section; the Bool of the
result records whether the worker thread was spawned. -/
def playit_start (g : GlobalState) : Int × GlobalState × Bool :=
  match playit_start_lock1 g with
  | .error code => (code, g, false)
  | .ok (_, g1) => (0, playit_start_lock2 (set_status g1 .Connecting none none), true)

/-- The observable actions of the worker thread spawned by playit_start:
a status write of the Error state, the critical section that resets the
control state, and the send on the completion rendezvous. -/
inductive WorkerEvent
  | statusError
  | ctrlReset
  | signalDone
deriving DecidableEq, Repr

/-- Trace of the worker thread body (lib.rs lines 270-304) as a function
of the runtime build outcome and of the run_agent outcome: when the
runtime cannot be built, the worker writes the Error status and signals
completion without touching the control state; otherwise it runs
run_agent, writes the Error status if it failed, then resets the control
state and signals completion. -/
def worker_trace (rtBuild : Except String Unit) (runResult : Except String Unit) :
    List WorkerEvent :=
  match rtBuild with
  | .error _ => [.statusError, .signalDone]
  | .ok _ =>
    (match runResult with
     | .error _ => [WorkerEvent.statusError]
     | .ok _ => []) ++ [.ctrlReset, .signalDone]

/-- Transcription of the worker cleanup critical section
(lib.rs lines 295-301): running and all three handles are cleared. -/
def worker_cleanup (g : GlobalState) : GlobalState :=
  { g with running := false, keep_running := false, stop_tx := false, stopped_rx := false }

/-- Outcome of recv_timeout on the completion rendezvous. -/
inductive RecvOutcome
  | received
  | timedOut
deriving DecidableEq, Repr

/-- The side effects performed by playit_stop outside the control lock:
whether the liveness flag was present and stored false, whether the stop
signal was sent, and whether the rendezvous was waited on. -/
structure StopEffects where
  stored_keep_running_false : Bool
  sent_stop : Bool
  waited_on_rendezvous : Bool
deriving DecidableEq, Repr

/-- Transcription of playit_stop (lib.rs lines 310-338): if not running,
return 0 at once with no effect; otherwise clear running and take the
three handles in one critical section, clear the liveness flag, send the
stop signal, wait on the rendezvous for at most two seconds (the outcome
rcv of that bounded wait is ignored), force the snapshot to Stopped, and
return 0. -/
def playit_stop (g : GlobalState) (_rcv : RecvOutcome) : Int × GlobalState × StopEffects :=
  if g.running then
    let eff : StopEffects :=
      { stored_keep_running_false := g.keep_running
        sent_stop := g.stop_tx
        waited_on_rendezvous := g.stopped_rx }
    let g1 := { g with running := false, stop_tx := false,
                       stopped_rx := false, keep_running := false }
    (0, set_status g1 .Stopped none none, eff)
  else
    (0, g, { stored_keep_running_false := false, sent_stop := false,
             waited_on_rendezvous := false })

/-- The locks of the bridge. -/
inductive LockId
  | control
  | status
  | logCb
deriving DecidableEq, Repr

/-- The locks acquired by playit_get_status in source order
(lib.rs lines 342-347): the control lock of STATE, then the status lock
of the snapshot reached through it. -/
def playit_get_status_locks : List LockId := [.control, .status]

/-- The locks acquired by set_status in source order (lib.rs lines
99-104): the control lock of STATE to clone the snapshot handle, then
the status lock to write it. -/
def set_status_locks : List LockId := [.control, .status]

/-- Severity of a structured log event. -/
inductive Level
  | Trace
  | Debug
  | Info
  | Warn
  | Error
deriving DecidableEq, Repr

/-- Transcription of the severity mapping of send_log
(lib.rs lines 186-192). -/
def level_code : Level → Int
  | .Error => 3
  | .Warn => 2
  | .Info => 1
  | .Debug => 0
  | .Trace => -1

/-- Transcription of LogCallbackState (lib.rs lines 48-51): presence of
the callback function pointer, and the opaque user_data pointer modelled
as an integer. -/
structure LogCallbackState where
  has_callback : Bool
  user_data : Int
deriving DecidableEq, Repr

/-- Transcription of send_log (lib.rs lines 180-200): the list of
callback invocations it performs, each a severity code, message and
user_data triple.  With no registered callback it returns at once; the
message has its null bytes removed and the CString failure branch
returns without invoking the callback. -/
def send_log (st : LogCallbackState) (level : Level) (message : String) :
    List (Int × String × Int) :=
  if st.has_callback then
    match cstringNew (removeNul message) with
    | none => []
    | some c => [(level_code level, c, st.user_data)]
  else []

/-- Transcription of LogVisitor (lib.rs lines 163-167). -/
structure LogVisitor where
  message : Option String
  fields : List (String × String)
deriving DecidableEq, Repr

/-- The quotation-mark character trimmed by the visitor. -/
def quoteChar : Char := '"'

/-- Model of trim_matches of the quote character (lib.rs line 172):
strips every leading and every trailing quotation mark. -/
def trim_quote_ends (s : String) : String :=
  ⟨((s.data.dropWhile (fun c => c == quoteChar)).reverse.dropWhile
      (fun c => c == quoteChar)).reverse⟩

/-- Transcription of LogVisitor record_debug (lib.rs lines 170-177): the
debugValue argument is the Debug rendering of the recorded value; a field
named message is captured with its quote ends trimmed, any other field is
appended to the key-value list. -/
def record_debug (v : LogVisitor) (fieldName : String) (debugValue : String) : LogVisitor :=
  if fieldName == "message" then { v with message := some (trim_quote_ends debugValue) }
  else { v with fields := v.fields ++ [(fieldName, debugValue)] }

/-- Transcription of the key-value rendering of CallbackLayer on_event
(lib.rs lines 138-143 and 148-153): each pair rendered as key=value,
joined by single spaces. -/
def render_fields : List (String × String) → String
  | [] => ""
  | [kv] => kv.1 ++ "=" ++ kv.2
  | kv :: rest => kv.1 ++ "=" ++ kv.2 ++ " " ++ render_fields rest

/-- Transcription of the message computation of CallbackLayer on_event
(lib.rs lines 134-157): the explicit message field if present, else the
key-value rendering of the fields, else the metadata target; when a
message field and other fields are both present and the rendering is
nonempty, the rendering is appended after the message. -/
def on_event_message (v : LogVisitor) (target : String) : String :=
  let message :=
    match v.message with
    | some m => m
    | none => if v.fields.isEmpty then target else render_fields v.fields
  if !v.fields.isEmpty && v.message.isSome then
    let extra := render_fields v.fields
    if extra == "" then message else message ++ " " ++ extra
  else message

/-- Transcription of CallbackLayer on_event (lib.rs lines 129-160): the
computed message is handed to send_log with the event severity. -/
def on_event (v : LogVisitor) (target : String) (level : Level)
    (st : LogCallbackState) : List (Int × String × Int) :=
  send_log st level (on_event_message v target)

/-- Transcription of AgentTunnel as used by update_status_from_rundata
(lib.rs lines 437-441): a display address and an optional disabled
reason. -/
structure AgentTunnel where
  display_address : String
  disabled_reason : Option String
deriving DecidableEq, Repr

/-- Transcription of AgentRunDataV1 as used by update_status_from_rundata:
the list of tunnels. -/
structure AgentRunDataV1 where
  tunnels : List AgentTunnel
deriving DecidableEq, Repr

/-- Transcription of update_status_from_rundata (lib.rs lines 433-452):
the first tunnel without a disabled reason, if any, gives state Connected
and its sanitized display address; otherwise state Disconnected with no
address; either branch clears the error field. -/
def update_status_from_rundata (st : StatusSnapshot) (data : AgentRunDataV1) :
    StatusSnapshot :=
  let address :=
    (data.tunnels.find? (fun t => t.disabled_reason.isNone)).map (·.display_address)
  match address with
  | some a =>
    { st with code := .Connected, last_address := cstring_sanitize a, last_error := none }
  | none =>
    { st with code := .Disconnected, last_address := none, last_error := none }

/-- A concrete configuration used to evaluate the model on closed inputs. -/
def exampleConfig : FfiConfig :=
  { secret_key := "secret", api_url := none, poll_interval_ms := none }

/-- The pristine state with a configuration stored, as left by a
successful playit_init. -/
def configuredState : GlobalState :=
  { initialGlobalState with config := some exampleConfig }

/-- The control state observable between the two critical sections of
playit_start when started from configuredState: running is already set
but the stop sender and the stopped receiver are not yet installed. -/
def midStartState : GlobalState :=
  { configuredState with running := true, keep_running := false }

/-- A control state with a live session: running with all three handles
present. -/
def runningState : GlobalState :=
  { configuredState with
    running := true
    stop_tx := true
    stopped_rx := true
    keep_running := true }

/-! Helper lemmas shared by the claim theorems. -/

/-- Sanitization removes every null character. -/
theorem removeNul_no_nul (s : String) : nulChar ∉ (removeNul s).data := by
  intro h
  have h2 := List.mem_filter.mp h
  simp at h2

/-- CString construction on a sanitized string always succeeds. -/
theorem cstringNew_removeNul (s : String) :
    cstringNew (removeNul s) = some (removeNul s) := by
  unfold cstringNew
  rw [if_neg (removeNul_no_nul s)]

/-- cstring_sanitize never fails: it returns the null-free string. -/
theorem cstring_sanitize_eq (v : String) :
    cstring_sanitize v = some (removeNul v) := by
  unfold cstring_sanitize
  exact cstringNew_removeNul v

/-- Binding an optional string through cstring_sanitize is mapping it
through removeNul. -/
theorem bind_cstring_sanitize (a : Option String) :
    a.bind cstring_sanitize = a.map removeNul := by
  cases a with
  | none => rfl
  | some v => simp [Option.bind, cstring_sanitize_eq]

/-- The key-value rendering of a nonempty field list is nonempty. -/
theorem render_fields_ne_empty (kv : String × String) (rest : List (String × String)) :
    render_fields (kv :: rest) ≠ "" := by
  intro h
  have hlen := congrArg String.length h
  cases rest with
  | nil =>
    simp [render_fields, String.length_append] at hlen
    have : (("=" : String).length) = 1 := rfl
    omega
  | cons r rs =>
    simp [render_fields, String.length_append] at hlen
    have : (("=" : String).length) = 1 := rfl
    omega

/-- The head of a dropWhile result never satisfies the predicate. -/
theorem head?_dropWhile_ne {α : Type} (p : α → Bool) (l : List α) (a : α)
    (h : (l.dropWhile p).head? = some a) : p a = false := by
  induction l with
  | nil => simp [List.dropWhile] at h
  | cons c t ih =>
    rw [List.dropWhile_cons] at h
    by_cases hc : p c
    · rw [if_pos hc] at h
      exact ih h
    · rw [if_neg hc] at h
      simp at h
      subst h
      exact Bool.eq_false_iff.mpr hc

/-- dropWhile leaves a list unchanged when its head fails the predicate. -/
theorem dropWhile_eq_self_of_head {α : Type} (p : α → Bool) (l : List α)
    (h : ∀ a, l.head? = some a → p a = false) : l.dropWhile p = l := by
  cases l with
  | nil => rfl
  | cons c t =>
    rw [List.dropWhile_cons, if_neg]
    simp [h c rfl]

/-- The last element of a dropWhile result is absent or is the last
element of the original list. -/
theorem getLast?_dropWhile {α : Type} (p : α → Bool) (l : List α) :
    (l.dropWhile p).getLast? = none ∨ (l.dropWhile p).getLast? = l.getLast? := by
  induction l with
  | nil => left; rfl
  | cons c t ih =>
    rw [List.dropWhile_cons]
    by_cases hc : p c
    · rw [if_pos hc]
      cases t with
      | nil => left; simp [List.dropWhile]
      | cons r rs =>
        rcases ih with h | h
        · left; exact h
        · right; rw [h]; simp [List.getLast?_cons_cons]
    · rw [if_neg hc]
      right; rfl

/-- The trimmed string never starts with a quotation mark. -/
theorem trim_quote_head (s : String) :
    (trim_quote_ends s).data.head? ≠ some quoteChar := by
  intro h
  unfold trim_quote_ends at h
  rw [List.head?_reverse] at h
  rcases getLast?_dropWhile (fun c => c == quoteChar)
      ((s.data.dropWhile (fun c => c == quoteChar)).reverse) with h2 | h2
  · rw [h2] at h; exact Option.noConfusion h
  · rw [h2, List.getLast?_reverse] at h
    have := head?_dropWhile_ne (fun c => c == quoteChar) s.data quoteChar h
    simp at this

/-- The trimmed string never ends with a quotation mark. -/
theorem trim_quote_last (s : String) :
    (trim_quote_ends s).data.getLast? ≠ some quoteChar := by
  intro h
  unfold trim_quote_ends at h
  rw [List.getLast?_reverse] at h
  have := head?_dropWhile_ne (fun c => c == quoteChar)
      ((s.data.dropWhile (fun c => c == quoteChar)).reverse) quoteChar h
  simp at this

/-- Trimming leaves a string unchanged when it neither starts nor ends
with a quotation mark. -/
theorem trim_quote_eq_self (s : String)
    (h1 : s.data.head? ≠ some quoteChar) (h2 : s.data.getLast? ≠ some quoteChar) :
    trim_quote_ends s = s := by
  unfold trim_quote_ends
  have hu : s.data.dropWhile (fun c => c == quoteChar) = s.data := by
    apply dropWhile_eq_self_of_head
    intro a ha
    have : a ≠ quoteChar := by
      intro hq; exact h1 (hq ▸ ha)
    simp [this]
  rw [hu]
  have hx : s.data.reverse.dropWhile (fun c => c == quoteChar) = s.data.reverse := by
    apply dropWhile_eq_self_of_head
    intro a ha
    rw [List.head?_reverse] at ha
    have : a ≠ quoteChar := by
      intro hq; exact h2 (hq ▸ ha)
    simp [this]
  rw [hx, List.reverse_reverse]

/-- Claim C10: when a log event carries an explicit message field, the
visitor captures its Debug rendering with all leading and trailing
quotation marks stripped: the captured string never starts or ends with a
quotation mark, a rendering with no boundary quotation marks is captured
verbatim, and with no extra fields the captured message is delivered
unchanged by the event handler. -/
theorem c10_record_debug (v : LogVisitor) (fieldName dv tgt : String) :
    record_debug v "message" dv = { v with message := some (trim_quote_ends dv) } ∧
    (fieldName ≠ "message" →
      record_debug v fieldName dv = { v with fields := v.fields ++ [(fieldName, dv)] }) ∧
    (trim_quote_ends dv).data.head? ≠ some quoteChar ∧
    (trim_quote_ends dv).data.getLast? ≠ some quoteChar ∧
    (dv.data.head? ≠ some quoteChar → dv.data.getLast? ≠ some quoteChar →
      trim_quote_ends dv = dv) ∧
    on_event_message { message := some (trim_quote_ends dv), fields := [] } tgt
      = trim_quote_ends dv ∧
    trim_quote_ends "connecting" = "connecting" ∧
    trim_quote_ends "\"quoted\"" = "quoted" := by
  refine ⟨?_, ?_, trim_quote_head dv, trim_quote_last dv, trim_quote_eq_self dv, ?_, ?_, ?_⟩
  · simp [record_debug]
  · intro h
    simp [record_debug, h]
  · simp [on_event_message]
  · decide
  · decide

/-- Witness for C10 at concrete inputs. -/
theorem c10_witness :
    record_debug { message := none, fields := [] } "message" "connecting"
      = { message := some (trim_quote_ends "connecting"), fields := [] } ∧
    trim_quote_ends "connecting" = "connecting" ∧
    record_debug { message := none, fields := [] } "other" "v"
      = { message := none, fields := [("other", "v")] } := by
  obtain ⟨h1, _, _, _, _, _, h7, _⟩ :=
    c10_record_debug { message := none, fields := [] } "other" "connecting" "tgt"
  obtain ⟨_, h2, _⟩ :=
    c10_record_debug { message := none, fields := [] } "other" "v" "tgt"
  exact ⟨h1, h7, h2 (by decide)⟩

/-- Claim C4: status publication from run data is a pure function of the
payload: the prior snapshot never influences the published one, the error
field is cleared in every branch, the state is Connected exactly when
some tunnel has no disabled reason, the first such tunnel supplies the
sanitized address, otherwise the state is Disconnected with no address;
the concrete payload of the spec yields Connected with address b. -/
theorem c4_status_publication (d : AgentRunDataV1) (s s1 s2 : StatusSnapshot)
    (t : AgentTunnel) :
    update_status_from_rundata s1 d = update_status_from_rundata s2 d ∧
    (update_status_from_rundata s d).last_error = none ∧
    ((update_status_from_rundata s d).code = PlayitStatusCode.Connected ↔
      ∃ t0, t0 ∈ d.tunnels ∧ t0.disabled_reason = none) ∧
    (d.tunnels.find? (fun t0 => t0.disabled_reason.isNone) = some t →
      (update_status_from_rundata s d).code = PlayitStatusCode.Connected ∧
      (update_status_from_rundata s d).last_address = some (removeNul t.display_address)) ∧
    (d.tunnels.find? (fun t0 => t0.disabled_reason.isNone) = none →
      (update_status_from_rundata s d).code = PlayitStatusCode.Disconnected ∧
      (update_status_from_rundata s d).last_address = none) ∧
    (update_status_from_rundata s
      ⟨[⟨"a", some "x"⟩, ⟨"b", none⟩]⟩).code = PlayitStatusCode.Connected ∧
    (update_status_from_rundata s
      ⟨[⟨"a", some "x"⟩, ⟨"b", none⟩]⟩).last_address = some "b" := by
  have hiff : (d.tunnels.find? (fun t0 => t0.disabled_reason.isNone)).isSome ↔
      ∃ t0, t0 ∈ d.tunnels ∧ t0.disabled_reason = none := by
    rw [List.find?_isSome]
    simp [Option.isNone_iff_eq_none]
  refine ⟨?_, ?_, ?_, ?_, ?_, ?_, ?_⟩
  · cases h : d.tunnels.find? (fun t0 => t0.disabled_reason.isNone) with
    | none => simp [update_status_from_rundata, h]
    | some a => simp [update_status_from_rundata, h]
  · cases h : d.tunnels.find? (fun t0 => t0.disabled_reason.isNone) with
    | none => simp [update_status_from_rundata, h]
    | some a => simp [update_status_from_rundata, h]
  · cases h : d.tunnels.find? (fun t0 => t0.disabled_reason.isNone) with
    | none =>
      rw [h] at hiff
      simp [update_status_from_rundata, h]
      simpa using hiff.not
    | some a =>
      rw [h] at hiff
      simp [update_status_from_rundata, h]
      simpa using hiff
  · intro h
    simp [update_status_from_rundata, h, cstring_sanitize_eq]
  · intro h
    simp [update_status_from_rundata, h]
  · rfl
  · rfl

/-- Witness for C4 at concrete inputs. -/
theorem c4_witness :
    (update_status_from_rundata ⟨.Stopped, none, none⟩
      ⟨[⟨"a", some "x"⟩, ⟨"b", none⟩]⟩).code = PlayitStatusCode.Connected ∧
    (update_status_from_rundata ⟨.Stopped, none, none⟩
      ⟨[⟨"a", some "x"⟩, ⟨"b", none⟩]⟩).last_address = some (removeNul "b") ∧
    (update_status_from_rundata ⟨.Stopped, none, none⟩
      ⟨[⟨"c", some "y"⟩]⟩).code = PlayitStatusCode.Disconnected := by
  obtain ⟨_, _, _, h4, _, _, _⟩ :=
    c4_status_publication ⟨[⟨"a", some "x"⟩, ⟨"b", none⟩]⟩
      ⟨.Stopped, none, none⟩ ⟨.Stopped, none, none⟩ ⟨.Stopped, none, none⟩ ⟨"b", none⟩
  obtain ⟨_, _, _, _, h5, _, _⟩ :=
    c4_status_publication ⟨[⟨"c", some "y"⟩]⟩
      ⟨.Stopped, none, none⟩ ⟨.Stopped, none, none⟩ ⟨.Stopped, none, none⟩ ⟨"b", none⟩
  exact ⟨(h4 (by decide)).1, (h4 (by decide)).2, (h5 (by decide)).1⟩

/-- Claim C9: sanitization removes every embedded null byte before a
string reaches the snapshot or the log callback: cstring_sanitize never
fails, its result is null-free, set_status stores exactly the null-free
images of its arguments, status publication stores only null-free
addresses, and send_log with a registered callback always performs the
invocation with the null-free message. -/
theorem c9_sanitization (v : String) (g : GlobalState) (code : PlayitStatusCode)
    (a e : Option String) (st : LogCallbackState) (lv : Level) (m : String) :
    cstring_sanitize v = some (removeNul v) ∧
    nulChar ∉ (removeNul v).data ∧
    (set_status g code a e).status.last_address = a.map removeNul ∧
    (set_status g code a e).status.last_error = e.map removeNul ∧
    (st.has_callback = true →
      send_log st lv m = [(level_code lv, removeNul m, st.user_data)]) ∧
    (∀ entry ∈ send_log st lv m, nulChar ∉ entry.2.1.data) ∧
    (∀ (s : StatusSnapshot) (d : AgentRunDataV1) (addr : String),
      (update_status_from_rundata s d).last_address = some addr →
      nulChar ∉ addr.data) := by
  refine ⟨cstring_sanitize_eq v, removeNul_no_nul v, ?_, ?_, ?_, ?_, ?_⟩
  · simp [set_status, bind_cstring_sanitize]
  · simp [set_status, bind_cstring_sanitize]
  · intro h
    simp [send_log, h, cstringNew_removeNul]
  · intro entry hmem
    by_cases h : st.has_callback = true
    · simp [send_log, h, cstringNew_removeNul] at hmem
      subst hmem
      exact removeNul_no_nul m
    · have h2 : st.has_callback = false := by simpa using h
      simp [send_log, h2] at hmem
  · intro s d addr h
    cases hf : d.tunnels.find? (fun t0 => t0.disabled_reason.isNone) with
    | none => simp [update_status_from_rundata, hf] at h
    | some t0 =>
      simp [update_status_from_rundata, hf, cstring_sanitize_eq] at h
      rw [← h]
      exact removeNul_no_nul t0.display_address

/-- Witness for C9 at concrete inputs. -/
theorem c9_witness :
    send_log { has_callback := true, user_data := 7 } Level.Info "hi"
      = [(level_code Level.Info, removeNul "hi", (7 : Int))] := by
  obtain ⟨_, _, _, _, h5, _, _⟩ :=
    c9_sanitization "hi" initialGlobalState PlayitStatusCode.Stopped none none
      { has_callback := true, user_data := 7 } Level.Info "hi"
  exact h5 rfl

/-- Claim C2 fails on the code: playit_get_status reaches the snapshot
through the STATE singleton and therefore acquires the control lock
first, contradicting the claim that the query path never takes the
control lock. -/
theorem c2_counterexample : LockId.control ∈ playit_get_status_locks := by
  decide

/-- Claim C2 amended: the snapshot is guarded by its own lock, distinct
from the control lock, but both the status read and the status write
first acquire the control lock to reach the snapshot handle and then the
status lock, so a status query can contend with an in-flight start or
stop on the control lock. -/
theorem c2_amended :
    LockId.control ∈ playit_get_status_locks ∧
    LockId.status ∈ playit_get_status_locks ∧
    LockId.control ∈ set_status_locks ∧
    LockId.status ∈ set_status_locks ∧
    LockId.status ≠ LockId.control := by
  decide

/-- Witness for C2 amended at the concrete lock traces. -/
theorem c2_witness :
    LockId.control ∈ playit_get_status_locks ∧
    LockId.status ∈ set_status_locks :=
  ⟨c2_amended.1, c2_amended.2.2.2.1⟩

/-- Claim C5: playit_init returns 0 exactly when the payload is non-null,
valid UTF-8, and decodes to the configuration shape with the secret_key
field present; the three failure classes return the pairwise-distinct
codes -1, -2 and -3 and leave the state untouched; on success the
configuration is stored, running and every handle are cleared, and a
following status query yields state Stopped with no address and no
error; an object payload without the credential field is malformed. -/
theorem c5_init (input : InitInput) (g : GlobalState) (j : Json) (c : FfiConfig) :
    playit_init InitInput.nullPtr g = (-1, g) ∧
    playit_init InitInput.invalidUtf8 g = (-2, g) ∧
    playit_init (InitInput.utf8 none) g = (-3, g) ∧
    (decodeFfiConfig j = none → playit_init (InitInput.utf8 (some j)) g = (-3, g)) ∧
    ((playit_init input g).1 = 0 ↔
      ∃ j0 c0, input = InitInput.utf8 (some j0) ∧ decodeFfiConfig j0 = some c0) ∧
    (decodeFfiConfig j = some c →
      ((playit_init (InitInput.utf8 (some j)) g).2.config = some c ∧
       (playit_init (InitInput.utf8 (some j)) g).2.running = false ∧
       (playit_init (InitInput.utf8 (some j)) g).2.stop_tx = false ∧
       (playit_init (InitInput.utf8 (some j)) g).2.stopped_rx = false ∧
       (playit_init (InitInput.utf8 (some j)) g).2.keep_running = false ∧
       playit_get_status (playit_init (InitInput.utf8 (some j)) g).2 = (0, none, none))) ∧
    decodeFfiConfig (Json.obj []) = none ∧
    ((-1 : Int) ≠ -2 ∧ (-1 : Int) ≠ -3 ∧ (-2 : Int) ≠ -3) := by
  refine ⟨rfl, rfl, rfl, ?_, ?_, ?_, rfl, by decide, by decide, by decide⟩
  · intro h
    simp [playit_init, h]
  · cases input with
    | nullPtr => simp [playit_init]
    | invalidUtf8 => simp [playit_init]
    | utf8 jo =>
      cases jo with
      | none => simp [playit_init]
      | some j0 =>
        cases h : decodeFfiConfig j0 with
        | none => simp [playit_init, h]
        | some c0 => simp [playit_init, h]
  · intro h
    simp [playit_init, h, set_status, playit_get_status, PlayitStatusCode.toInt]

/-- Witness for C5 at concrete inputs. -/
theorem c5_witness :
    playit_get_status
      (playit_init (InitInput.utf8 (some (Json.obj [("secret_key", Json.str "k")])))
        initialGlobalState).2 = (0, none, none) ∧
    playit_init (InitInput.utf8 (some (Json.obj []))) initialGlobalState
      = (-3, initialGlobalState) := by
  obtain ⟨_, _, _, _, _, h6, _, _⟩ :=
    c5_init InitInput.nullPtr initialGlobalState
      (Json.obj [("secret_key", Json.str "k")])
      { secret_key := "k", api_url := none, poll_interval_ms := none }
  obtain ⟨_, _, _, h4, _, _, _, _⟩ :=
    c5_init InitInput.nullPtr initialGlobalState (Json.obj [])
      { secret_key := "k", api_url := none, poll_interval_ms := none }
  exact ⟨(h6 rfl).2.2.2.2.2, h4 rfl⟩

/-- Claim C6: playit_start checks its preconditions in one critical
section of the control lock: an already-running session returns -2 with
the state untouched, a missing configuration returns -1 with the state
untouched and running still false, the call returns 0 exactly when the
preconditions hold and exactly when the worker was spawned, a start on
the pristine state returns the not-configured code, and a second start
right after a successful one returns the already-running code. -/
theorem c6_start (g : GlobalState) :
    (g.running = true → playit_start g = (-2, g, false)) ∧
    (g.running = false → g.config = none → playit_start g = (-1, g, false)) ∧
    ((playit_start g).1 = 0 ↔ (g.running = false ∧ g.config ≠ none)) ∧
    ((playit_start g).2.2 = true ↔ (playit_start g).1 = 0) ∧
    ((playit_start g).1 = 0 →
      playit_start (playit_start g).2.1 = (-2, (playit_start g).2.1, false)) ∧
    playit_start initialGlobalState = (-1, initialGlobalState, false) ∧
    ((0 : Int) ≠ -1 ∧ (0 : Int) ≠ -2 ∧ (-1 : Int) ≠ -2) := by
  refine ⟨?_, ?_, ?_, ?_, ?_, by decide, by decide, by decide, by decide⟩
  · intro h
    simp [playit_start, playit_start_lock1, h]
  · intro h1 h2
    simp [playit_start, playit_start_lock1, h1, h2]
  · by_cases hr : g.running = true
    · simp [playit_start, playit_start_lock1, hr]
    · have hr2 : g.running = false := by simpa using hr
      cases hc : g.config with
      | none => simp [playit_start, playit_start_lock1, hr2, hc]
      | some c => simp [playit_start, playit_start_lock1, hr2, hc]
  · by_cases hr : g.running = true
    · simp [playit_start, playit_start_lock1, hr]
    · have hr2 : g.running = false := by simpa using hr
      cases hc : g.config with
      | none => simp [playit_start, playit_start_lock1, hr2, hc]
      | some c => simp [playit_start, playit_start_lock1, hr2, hc]
  · intro h
    by_cases hr : g.running = true
    · simp [playit_start, playit_start_lock1, hr] at h
    · have hr2 : g.running = false := by simpa using hr
      cases hc : g.config with
      | none => simp [playit_start, playit_start_lock1, hr2, hc] at h
      | some c =>
        simp [playit_start, playit_start_lock1, hr2, hc, playit_start_lock2, set_status]

/-- Witness for C6 at concrete inputs. -/
theorem c6_witness :
    playit_start { initialGlobalState with running := true }
      = (-2, { initialGlobalState with running := true }, false) ∧
    playit_start initialGlobalState = (-1, initialGlobalState, false) := by
  obtain ⟨h1, _, _, _, _, _, _⟩ :=
    c6_start { initialGlobalState with running := true }
  obtain ⟨_, h2, _, _, _, _, _⟩ := c6_start initialGlobalState
  exact ⟨h1 rfl, h2 rfl rfl⟩

/-- Claim C7: playit_stop always returns 0; with no running session it is
an idempotent no-op that leaves the state and the snapshot untouched;
with a running session it clears the running flag, takes all three
handles, stores false into the liveness flag when present, sends the stop
signal when the sender is present, waits on the rendezvous when the
receiver is present, force-sets the snapshot to Stopped, and its result
does not depend on whether the bounded wait received or timed out. -/
theorem c7_stop (g : GlobalState) (r r2 : RecvOutcome) :
    (playit_stop g r).1 = 0 ∧
    (g.running = false →
      playit_stop g r = (0, g, ⟨false, false, false⟩)) ∧
    (g.running = true →
      ((playit_stop g r).2.1.running = false ∧
       (playit_stop g r).2.1.stop_tx = false ∧
       (playit_stop g r).2.1.stopped_rx = false ∧
       (playit_stop g r).2.1.keep_running = false ∧
       (playit_stop g r).2.2.stored_keep_running_false = g.keep_running ∧
       (playit_stop g r).2.2.sent_stop = g.stop_tx ∧
       (playit_stop g r).2.2.waited_on_rendezvous = g.stopped_rx ∧
       (playit_stop g r).2.1.status = ⟨.Stopped, none, none⟩)) ∧
    playit_stop g r = playit_stop g r2 := by
  refine ⟨?_, ?_, ?_, rfl⟩
  · by_cases hr : g.running = true
    · simp [playit_stop, hr]
    · have hr2 : g.running = false := by simpa using hr
      simp [playit_stop, hr2]
  · intro h
    simp [playit_stop, h]
  · intro h
    simp [playit_stop, h, set_status]

/-- Witness for C7 at concrete inputs. -/
theorem c7_witness :
    playit_stop initialGlobalState RecvOutcome.timedOut
      = (0, initialGlobalState, ⟨false, false, false⟩) ∧
    (playit_stop runningState RecvOutcome.timedOut).2.1.running = false := by
  obtain ⟨_, h2, _, _⟩ :=
    c7_stop initialGlobalState RecvOutcome.timedOut RecvOutcome.received
  obtain ⟨_, _, h3, _⟩ :=
    c7_stop runningState RecvOutcome.timedOut RecvOutcome.received
  exact ⟨h2 rfl, (h3 (by decide)).1⟩

/-- Claim C8: the log bridge computes one message per structured event:
the explicit message field with the key-value rendering of the remaining
fields appended when both exist, the rendering alone when no message
field exists, and the target tag when there are no fields at all; the
severity map sends Trace, Debug, Info, Warn, Error to -1, 0, 1, 2, 3;
with a registered callback the event produces exactly one invocation
carrying the severity code, the sanitized message and the stored context
pointer, and with no callback the event is discarded. -/
theorem c8_log_bridge (v : LogVisitor) (tgt : String) (st : LogCallbackState)
    (lv : Level) (m : String) :
    (v.message = some m → v.fields = [] → on_event_message v tgt = m) ∧
    (v.message = some m → v.fields ≠ [] →
      on_event_message v tgt = m ++ " " ++ render_fields v.fields) ∧
    (v.message = none → v.fields = [] → on_event_message v tgt = tgt) ∧
    (v.message = none → v.fields ≠ [] → on_event_message v tgt = render_fields v.fields) ∧
    (level_code Level.Trace = -1 ∧ level_code Level.Debug = 0 ∧ level_code Level.Info = 1 ∧
     level_code Level.Warn = 2 ∧ level_code Level.Error = 3) ∧
    (st.has_callback = true →
      on_event v tgt lv st
        = [(level_code lv, removeNul (on_event_message v tgt), st.user_data)] ∧
      (on_event v tgt lv st).length = 1) ∧
    (st.has_callback = false → on_event v tgt lv st = []) := by
  refine ⟨?_, ?_, ?_, ?_, by decide, ?_, ?_⟩
  · intro h1 h2
    simp [on_event_message, h1, h2]
  · intro h1 h2
    cases hf : v.fields with
    | nil => exact absurd hf h2
    | cons kv rest =>
      have hne : (render_fields (kv :: rest) == "") = false :=
        beq_eq_false_iff_ne.mpr (render_fields_ne_empty kv rest)
      simp [on_event_message, h1, hf, hne]
  · intro h1 h2
    simp [on_event_message, h1, h2]
  · intro h1 h2
    cases hf : v.fields with
    | nil => exact absurd hf h2
    | cons kv rest => simp [on_event_message, h1, hf]
  · intro h
    constructor
    · simp [on_event, send_log, h, cstringNew_removeNul]
    · simp [on_event, send_log, h, cstringNew_removeNul]
  · intro h
    simp [on_event, send_log, h]

/-- Witness for C8 at concrete inputs. -/
theorem c8_witness :
    on_event { message := some "connecting", fields := [] } "tgt" Level.Info
      { has_callback := true, user_data := 7 }
      = [(level_code Level.Info,
          removeNul (on_event_message { message := some "connecting", fields := [] } "tgt"),
          (7 : Int))] ∧
    on_event_message { message := some "connecting", fields := [] } "tgt" = "connecting" ∧
    on_event { message := some "connecting", fields := [] } "tgt" Level.Info
      { has_callback := false, user_data := 7 } = [] := by
  obtain ⟨h1, _, _, _, _, h6, _⟩ :=
    c8_log_bridge { message := some "connecting", fields := [] } "tgt"
      { has_callback := true, user_data := 7 } Level.Info "connecting"
  obtain ⟨_, _, _, _, _, _, h7⟩ :=
    c8_log_bridge { message := some "connecting", fields := [] } "tgt"
      { has_callback := false, user_data := 7 } Level.Info "connecting"
  exact ⟨(h6 rfl).1, h1 rfl rfl, h7 rfl⟩

/-- Claim C1 fails on the code: playit_start mutates the control state in
two separate critical sections, and the state left by the first one,
visible while no lock is held, has running already true with the stop
sender and the stopped receiver still absent, violating the claimed
invariant; the second critical section then mutates further fields. -/
theorem c1_counterexample :
    playit_start_lock1 configuredState = Except.ok (exampleConfig, midStartState) ∧
    midStartState.running = true ∧
    midStartState.stop_tx = false ∧
    midStartState.stopped_rx = false ∧
    ¬ ctrlInv midStartState ∧
    playit_start_lock2 midStartState ≠ midStartState := by
  refine ⟨rfl, rfl, rfl, rfl, by decide, by decide⟩

/-- Claim C1 amended: playit_init, playit_stop and the worker cleanup
each perform all their control-state mutations in a single critical
section and preserve the invariant that running holds exactly when both
shutdown handles are present; playit_start restores the invariant by the
end of its second critical section, but between its two critical
sections the lock is released in a state where running is true and both
handles are absent. -/
theorem c1_amended (g : GlobalState) (input : InitInput) (r : RecvOutcome)
    (c : FfiConfig) (g1 : GlobalState) :
    ctrlInv g →
    (ctrlInv (playit_init input g).2 ∧
     ctrlInv (playit_stop g r).2.1 ∧
     ctrlInv (worker_cleanup g) ∧
     ctrlInv (playit_start g).2.1 ∧
     (playit_start_lock1 g = Except.ok (c, g1) →
       ¬ ctrlInv g1 ∧
       ctrlInv (playit_start_lock2 (set_status g1 .Connecting none none)))) := by
  intro hinv
  refine ⟨?_, ?_, ?_, ?_, ?_⟩
  · cases input with
    | nullPtr => exact hinv
    | invalidUtf8 => exact hinv
    | utf8 jo =>
      cases jo with
      | none => exact hinv
      | some j =>
        cases h : decodeFfiConfig j with
        | none => simpa [playit_init, h] using hinv
        | some c0 => simp [playit_init, h, set_status, ctrlInv]
  · by_cases hr : g.running = true
    · simp [playit_stop, hr, set_status, ctrlInv]
    · have hr2 : g.running = false := by simpa using hr
      simpa [playit_stop, hr2] using hinv
  · simp [worker_cleanup, ctrlInv]
  · by_cases hr : g.running = true
    · simpa [playit_start, playit_start_lock1, hr] using hinv
    · have hr2 : g.running = false := by simpa using hr
      cases hc : g.config with
      | none => simpa [playit_start, playit_start_lock1, hr2, hc] using hinv
      | some c0 =>
        simp [playit_start, playit_start_lock1, hr2, hc, playit_start_lock2,
          set_status, ctrlInv]
  · intro h
    by_cases hr : g.running = true
    · simp [playit_start_lock1, hr] at h
    · have hr2 : g.running = false := by simpa using hr
      cases hc : g.config with
      | none => simp [playit_start_lock1, hr2, hc] at h
      | some c0 =>
        simp [playit_start_lock1, hr2, hc] at h
        have hinv2 : g.running = true ↔ (g.stop_tx = true ∧ g.stopped_rx = true) := hinv
        have hnb : ¬ (g.stop_tx = true ∧ g.stopped_rx = true) := by
          intro hb
          have hr3 := hinv2.mpr hb
          rw [hr2] at hr3
          exact Bool.noConfusion hr3
        obtain ⟨hc0, hg1⟩ := h
        subst hg1
        constructor
        · intro hbad
          exact hnb (hbad.mp rfl)
        · simp [playit_start_lock2, set_status, ctrlInv]

/-- Witness for C1 amended at concrete inputs. -/
theorem c1_witness :
    ¬ ctrlInv midStartState ∧
    ctrlInv (playit_start_lock2 (set_status midStartState .Connecting none none)) ∧
    ctrlInv (worker_cleanup configuredState) ∧
    ctrlInv (playit_stop runningState RecvOutcome.received).2.1 := by
  obtain ⟨_, hstop, hclean, _, hwin⟩ :=
    c1_amended configuredState InitInput.nullPtr RecvOutcome.received
      exampleConfig midStartState (by decide)
  obtain ⟨hw1, hw2⟩ := hwin rfl
  obtain ⟨_, hstop2, _, _, _⟩ :=
    c1_amended runningState InitInput.nullPtr RecvOutcome.received
      exampleConfig midStartState (by decide)
  exact ⟨hw1, hw2, hclean, hstop2⟩

/-- Claim C3 fails on the code: the worker exit taken when the
asynchronous runtime cannot be built writes the Error status and signals
completion on the rendezvous without ever resetting the control state —
no control-reset event appears in its trace. -/
theorem c3_counterexample :
    worker_trace (Except.error "failed to create runtime") (Except.ok ())
      = [WorkerEvent.statusError, WorkerEvent.signalDone] ∧
    WorkerEvent.ctrlReset ∉
      worker_trace (Except.error "failed to create runtime") (Except.ok ()) := by
  exact ⟨rfl, by decide⟩

/-- Claim C3 amended: every worker exit signals completion on the
rendezvous; on the exits that reach the asynchronous block — normal loop
exit after a stop request, initial-fetch failure or agent-construction
failure — the worker first resets the control state (running, stop
sender, stopped receiver and liveness flag all cleared) and only then
signals completion; on the runtime-creation-failure exit it signals
completion without resetting the control state. -/
theorem c3_amended (rt run : Except String Unit) (g : GlobalState) :
    WorkerEvent.signalDone ∈ worker_trace rt run ∧
    (rt = Except.ok () →
      ∃ l1 l2, worker_trace rt run = l1 ++ WorkerEvent.ctrlReset :: l2 ∧
        WorkerEvent.signalDone ∈ l2) ∧
    (∀ e, rt = Except.error e →
      WorkerEvent.ctrlReset ∉ worker_trace rt run ∧
      WorkerEvent.statusError ∈ worker_trace rt run) ∧
    ((worker_cleanup g).running = false ∧ (worker_cleanup g).stop_tx = false ∧
     (worker_cleanup g).stopped_rx = false ∧ (worker_cleanup g).keep_running = false) := by
  refine ⟨?_, ?_, ?_, by simp [worker_cleanup]⟩
  · cases rt with
    | error e => simp [worker_trace]
    | ok u =>
      cases run with
      | error e2 => simp [worker_trace]
      | ok u2 => simp [worker_trace]
  · intro h
    subst h
    cases run with
    | error e2 =>
      exact ⟨[WorkerEvent.statusError], [WorkerEvent.signalDone], rfl, by decide⟩
    | ok u2 =>
      exact ⟨[], [WorkerEvent.signalDone], rfl, by decide⟩
  · intro e h
    subst h
    exact ⟨by simp [worker_trace], by simp [worker_trace]⟩

/-- Witness for C3 amended at concrete inputs. -/
theorem c3_witness :
    (∃ l1 l2, worker_trace (Except.ok ()) (Except.ok ())
        = l1 ++ WorkerEvent.ctrlReset :: l2 ∧ WorkerEvent.signalDone ∈ l2) ∧
    WorkerEvent.ctrlReset ∉ worker_trace (Except.error "boom") (Except.ok ()) ∧
    (worker_cleanup runningState).running = false := by
  obtain ⟨_, h2, _, h4⟩ := c3_amended (Except.ok ()) (Except.ok ()) runningState
  obtain ⟨_, _, h3, _⟩ := c3_amended (Except.error "boom") (Except.ok ()) runningState
  exact ⟨h2 rfl, (h3 "boom" rfl).1, h4.1⟩

end PlayitFfi
